import Mathlib

/-
Verification of the ShuarTranslator linguistic analysis engine.

The definitions below are a shallow embedding of the engine's Python source
(`app/features/translation/domain/services/*.py` and the associated entities
and value objects).  Python floats are modelled as exact rationals (ℚ), except
for the translation scoring service whose formulas use `math.log` and are
therefore modelled over the reals (ℝ).  Python exceptions are modelled with
`Except PyError`.  Machine-level float rounding is not modelled; all numeric
constants of the source (0.3, 0.25, ...) are taken as exact rationals.
-/

namespace ShuarTranslator

/-- Kinds of runtime errors the engine can raise: `ValidationError` (from
`app.core.shared.exceptions`) for input-contract violations, and Python's
built-in `ZeroDivisionError` for unguarded divisions. -/
inductive PyError where
  | validationError
  | zeroDivisionError
deriving DecidableEq

/-! ## Python string primitives

Helpers modelling the Python `str` operations used by the engine
(`str.strip`, `str.lower`, `str.split`, `str.count`, slicing).  `lower` is
modelled for ASCII letters plus the accented vowels of the Shuar/Spanish
inventories; other characters are left unchanged. -/

/-- Whitespace recognized by Python `str.strip()` / `str.split()`
(space, tab, newline, carriage return, vertical tab, form feed). -/
def pyIsSpace (c : Char) : Bool :=
  c == ' ' || c == '\t' || c == '\n' || c == '\r' ||
  c == Char.ofNat 11 || c == Char.ofNat 12

/-- Python `str.lower` on a single character (ASCII plus the accented vowels
used by the engine's alphabets; identity elsewhere). -/
def pyLowerChar (c : Char) : Char :=
  if c = 'Á' then 'á' else if c = 'É' then 'é' else if c = 'Í' then 'í'
  else if c = 'Ó' then 'ó' else if c = 'Ú' then 'ú' else if c = 'Ä' then 'ä'
  else if c = 'Ë' then 'ë' else if c = 'Ï' then 'ï' else if c = 'Ü' then 'ü'
  else if c = 'Ñ' then 'ñ' else c.toLower

/-- Python `str.lower`. -/
def pyLowerStr (s : String) : String :=
  String.mk (s.data.map pyLowerChar)

/-- Python `str.strip` on a character list: drop whitespace from both ends. -/
def pyStripList (l : List Char) : List Char :=
  ((l.dropWhile pyIsSpace).reverse.dropWhile pyIsSpace).reverse

/-- Python `str.strip`. -/
def pyStrip (s : String) : String :=
  String.mk (pyStripList s.data)

/-- Helper for `pySplit`: accumulates the current word (reversed) while
scanning. -/
def pySplitAux : List Char → List Char → List (List Char)
  | [], acc => if acc = [] then [] else [acc.reverse]
  | c :: rest, acc =>
    if pyIsSpace c then
      (if acc = [] then pySplitAux rest [] else acc.reverse :: pySplitAux rest [])
    else pySplitAux rest (c :: acc)

/-- Python `str.split()` (no argument): maximal runs of non-whitespace. -/
def pySplit (s : String) : List String :=
  (pySplitAux s.data []).map String.mk

/-- Number of non-overlapping occurrences of the two-character pattern `a b`,
scanning left to right (Python `str.count` for a length-2 pattern). -/
def countSub2 (a b : Char) : List Char → ℕ
  | [] => 0
  | [_] => 0
  | c1 :: c2 :: rest =>
    if c1 = a ∧ c2 = b then 1 + countSub2 a b rest
    else countSub2 a b (c2 :: rest)

/-- Python `str.replace(ab, X)` for a two-character pattern: replace each
non-overlapping occurrence, scanning left to right. -/
def replaceSub2 (a b X : Char) : List Char → List Char
  | [] => []
  | [c] => [c]
  | c1 :: c2 :: rest =>
    if c1 = a ∧ c2 = b then X :: replaceSub2 a b X rest
    else c1 :: replaceSub2 a b X (c2 :: rest)

/-! ## Phonological analysis service

Embedding of `phonological_analysis_service.py`
(`PhonologicalAnalysisService`). -/

/-- `VocalType` enum from `entities/word.py`. -/
inductive VocalType where
  | oral
  | nasal
  | laryngealized
deriving DecidableEq

/-- `PhonologicalAnalysisService.ORAL_VOWELS`. -/
def ORAL_VOWELS : List Char := ['a', 'e', 'i', 'u']

/-- `PhonologicalAnalysisService.NASAL_VOWELS`. -/
def NASAL_VOWELS : List Char := ['á', 'é', 'í', 'ú']

/-- `PhonologicalAnalysisService.LARYNGEALIZED_VOWELS`. -/
def LARYNGEALIZED_VOWELS : List Char := ['ä', 'ë', 'ï', 'ü']

/-- `PhonologicalAnalysisService.ALL_VOWELS`. -/
def ALL_VOWELS : List Char := ORAL_VOWELS ++ NASAL_VOWELS ++ LARYNGEALIZED_VOWELS

/-- `PhonologicalAnalysisService.CONSONANTS`. -/
def CONSONANTS : List Char := ['p', 't', 'k', 's', 'j', 'm', 'n', 'r', 'w', 'y']

/-- Membership test for the `DIGRAPHS` set `{ch, sh, ts}` applied to a
two-character window. -/
def isDigraphPair (c1 c2 : Char) : Bool :=
  (c1 == 'c' && c2 == 'h') || (c1 == 's' && c2 == 'h') || (c1 == 't' && c2 == 's')

/-- Sequential replacement of the three digraphs by the placeholder `X`
(the `for digraph in self.DIGRAPHS: temp_word.replace(digraph, 'X')` loop;
the set is iterated in source order ch, sh, ts). -/
def replace_digraphs (w : List Char) : List Char :=
  replaceSub2 't' 's' 'X' (replaceSub2 's' 'h' 'X' (replaceSub2 'c' 'h' 'X' w))

/-- `_detect_vocal_types`: which vowel classes occur in the word.  The Python
set is modelled as a duplicate-free list in first-occurrence order. -/
def detect_vocal_types (w : List Char) : List VocalType :=
  (w.filterMap fun c =>
    if c ∈ ORAL_VOWELS then some VocalType.oral
    else if c ∈ NASAL_VOWELS then some VocalType.nasal
    else if c ∈ LARYNGEALIZED_VOWELS then some VocalType.laryngealized
    else none).dedup

/-- `_detect_digraphs`: each digraph repeated by its non-overlapping
occurrence count, iterating the digraph set in source order. -/
def detect_digraphs (w : List Char) : List String :=
  List.replicate (countSub2 'c' 'h' w) "ch" ++
  List.replicate (countSub2 's' 'h' w) "sh" ++
  List.replicate (countSub2 't' 's' w) "ts"

/-- Helper for `_detect_consonant_clusters`: scan for maximal runs (length
greater than 1) of consonants or the digraph placeholder `X`; `cur` is the
current run, reversed. -/
def clustersAux : List Char → List Char → List String
  | [], cur => if cur.length > 1 then [String.mk cur.reverse] else []
  | c :: rest, cur =>
    if c ∈ CONSONANTS ∨ c = 'X' then clustersAux rest (c :: cur)
    else if cur.length > 1 then String.mk cur.reverse :: clustersAux rest []
    else clustersAux rest []

/-- `_detect_consonant_clusters`. -/
def detect_consonant_clusters (w : List Char) : List String :=
  clustersAux (replace_digraphs w) []

/-- Helper for `_count_syllables`: counts maximal vowel runs; the Bool is
`prev_was_vowel`. -/
def countVowelRuns : List Char → Bool → ℕ
  | [], _ => 0
  | c :: rest, prev =>
    let isV : Bool := decide (c ∈ ALL_VOWELS)
    (if isV && !prev then 1 else 0) + countVowelRuns rest isV

/-- `_count_syllables`: number of maximal vowel runs after digraph
replacement, with a minimum of 1. -/
def count_syllables (w : List Char) : ℕ :=
  max 1 (countVowelRuns (replace_digraphs w) false)

/-- `_analyze_syllable_pattern`: map vowels to `V`, consonants and the
digraph placeholder to `C`, drop everything else. -/
def analyze_syllable_pattern (w : List Char) : String :=
  String.mk ((replace_digraphs w).filterMap fun c =>
    if c ∈ ALL_VOWELS then some 'V'
    else if c ∈ CONSONANTS ∨ c = 'X' then some 'C'
    else none)

/-- `_calculate_phonological_complexity`. -/
def calculate_phonological_complexity (vocal_types : List VocalType)
    (digraphs clusters : List String) (syllable_count : ℕ) : ℚ :=
  let complexity : ℚ :=
    min ((syllable_count : ℚ) * (1/10)) (3/10) +
    (vocal_types.length : ℚ) * (1/10) +
    (digraphs.length : ℚ) * (1/10) +
    (clusters.length : ℚ) * (3/20) +
    (if VocalType.laryngealized ∈ vocal_types then (1/5 : ℚ) else 0)
  min complexity 1

/-- `PhonologicalFeatures` dataclass of the phonological analysis service. -/
structure PhonologicalFeatures where
  vocal_types : List VocalType
  has_digraphs : Bool
  digraphs_present : List String
  consonant_clusters : List String
  syllable_count : ℕ
  syllable_pattern : String
  phonological_complexity : ℚ
deriving DecidableEq

/-- `PhonologicalAnalysisService.analyze_word`: fails with `ValidationError`
on an empty or blank word, otherwise analyzes the lowercased, stripped word. -/
def analyze_word (shuar_word : String) : Except PyError PhonologicalFeatures :=
  if shuar_word = "" ∨ pyStrip shuar_word = "" then .error .validationError
  else
    let word := (pyStrip (pyLowerStr shuar_word)).data
    let vocal_types := detect_vocal_types word
    let digraphs_present := detect_digraphs word
    let consonant_clusters := detect_consonant_clusters word
    let syllable_count := count_syllables word
    .ok {
      vocal_types := vocal_types
      has_digraphs := digraphs_present.length > 0
      digraphs_present := digraphs_present
      consonant_clusters := consonant_clusters
      syllable_count := syllable_count
      syllable_pattern := analyze_syllable_pattern word
      phonological_complexity :=
        calculate_phonological_complexity vocal_types digraphs_present
          consonant_clusters syllable_count
    }

/-- `IPA_MAPPINGS` lookup for a single character, `.get(char, char)`:
unknown characters pass through. -/
def ipaMapChar (c : Char) : List Char :=
  if c = 'a' then ['a'] else if c = 'e' then ['e'] else if c = 'i' then ['i']
  else if c = 'u' then ['u']
  else if c = 'á' then ['ã'] else if c = 'é' then ['ẽ'] else if c = 'í' then ['ĩ']
  else if c = 'ú' then ['ũ']
  else if c = 'ä' then ['a', 'ʔ'] else if c = 'ë' then ['e', 'ʔ']
  else if c = 'ï' then ['i', 'ʔ'] else if c = 'ü' then ['u', 'ʔ']
  else if c = 'p' then ['p'] else if c = 't' then ['t'] else if c = 'k' then ['k']
  else if c = 's' then ['s'] else if c = 'j' then ['h'] else if c = 'm' then ['m']
  else if c = 'n' then ['n'] else if c = 'r' then ['ɾ'] else if c = 'w' then ['w']
  else if c = 'y' then ['j']
  else [c]

/-- `IPA_MAPPINGS` lookup for a digraph, `.get(digraph, digraph)`. -/
def ipaMapDigraph (c1 c2 : Char) : List Char :=
  if c1 = 'c' ∧ c2 = 'h' then ['t', 'ʃ']
  else if c1 = 's' ∧ c2 = 'h' then ['ʃ']
  else if c1 = 't' ∧ c2 = 's' then ['t', 's']
  else [c1, c2]

/-- The greedy left-to-right scan of `generate_ipa_transcription`: a
two-character digraph is consumed first, otherwise a single character. -/
def ipaCore : List Char → List Char
  | [] => []
  | [c] => ipaMapChar c
  | c1 :: c2 :: rest =>
    if isDigraphPair c1 c2 then ipaMapDigraph c1 c2 ++ ipaCore rest
    else ipaMapChar c1 ++ ipaCore (c2 :: rest)

/-- `PhonologicalAnalysisService.generate_ipa_transcription`: empty input
maps to the empty string, otherwise the word is lowercased, stripped and
transcribed. -/
def generate_ipa_transcription (shuar_word : String) : String :=
  if shuar_word = "" then ""
  else String.mk (ipaCore (pyStrip (pyLowerStr shuar_word)).data)

/-- Classic Levenshtein edit distance (the DP matrix of
`_levenshtein_similarity` implements this recurrence). -/
def levenshtein : List Char → List Char → ℕ
  | [], ys => ys.length
  | x :: xs, [] => (x :: xs).length
  | x :: xs, y :: ys =>
    min (levenshtein xs (y :: ys) + 1)
      (min (levenshtein (x :: xs) ys + 1)
        (levenshtein xs ys + (if x = y then 0 else 1)))
termination_by xs ys => xs.length + ys.length
decreasing_by all_goals simp_arith

/-- `_levenshtein_similarity`: 1 for equal strings, 0 when either is empty,
otherwise `1 - distance / max(len1, len2)`. -/
def levenshtein_similarity (s1 s2 : String) : ℚ :=
  if s1 = s2 then 1
  else if s1 = "" ∨ s2 = "" then 0
  else if max s1.data.length s2.data.length > 0 then
    1 - (levenshtein s1.data s2.data : ℚ) / ((max s1.data.length s2.data.length : ℕ) : ℚ)
  else 0

/-- `_calculate_vocal_type_similarity`: Jaccard similarity of the vocal-type
sets, with 1.0 when both are empty. -/
def calculate_vocal_type_similarity (types1 types2 : List VocalType) : ℚ :=
  if types1 = [] ∧ types2 = [] then 1
  else
    let inter := types1.filter (· ∈ types2)
    let union := (types1 ++ types2).dedup
    if union ≠ [] then (inter.length : ℚ) / (union.length : ℚ) else 0

/-- `_calculate_syllable_similarity`. -/
def calculate_syllable_similarity (count1 count2 : ℕ) : ℚ :=
  if count1 = count2 then 1
  else
    let diff : ℕ := max count1 count2 - min count1 count2
    max 0 (1 - (diff : ℚ) / ((max count1 count2 : ℕ) : ℚ))

/-- `_calculate_pattern_similarity`. -/
def calculate_pattern_similarity (p1 p2 : String) : ℚ :=
  if p1 = p2 then 1
  else if p1 = "" ∨ p2 = "" then 0
  else levenshtein_similarity p1 p2

/-- `_calculate_sound_similarity`: Levenshtein similarity of the IPA
transcriptions. -/
def calculate_sound_similarity (word1 word2 : String) : ℚ :=
  levenshtein_similarity (generate_ipa_transcription word1)
    (generate_ipa_transcription word2)

/-- `PhonologicalAnalysisService.calculate_phonological_similarity`: 0.0 when
either word is the empty string; otherwise the 30/20/25/25 weighted blend of
vocal-type, syllable-count, pattern and sound similarity, capped at 1. -/
def calculate_phonological_similarity (word1 word2 : String) :
    Except PyError ℚ :=
  if word1 = "" ∨ word2 = "" then .ok 0
  else
    (analyze_word word1).bind fun f1 =>
      (analyze_word word2).map fun f2 =>
        min (calculate_vocal_type_similarity f1.vocal_types f2.vocal_types * (3/10) +
          calculate_syllable_similarity f1.syllable_count f2.syllable_count * (1/5) +
          calculate_pattern_similarity f1.syllable_pattern f2.syllable_pattern * (1/4) +
          calculate_sound_similarity word1 word2 * (1/4)) 1

/-! ## Alphabets used in the idempotence analysis of the IPA transcription -/

/-- Input characters of the Shuar inventory whose transcription never
produces a character that the symbol table maps elsewhere on a second pass
(the inventory minus `y`, `j` and the digraphs `ch`, `sh`). -/
def ipaSafeChars : List Char :=
  ['a', 'e', 'i', 'u', 'á', 'é', 'í', 'ú', 'ä', 'ë', 'ï', 'ü',
   'p', 't', 'k', 's', 'm', 'n', 'r', 'w']

/-- Output characters produced by transcribing `ipaSafeChars` words; each is
a fixed point of the symbol table. -/
def ipaStableChars : List Char :=
  ['a', 'e', 'i', 'u', 'ã', 'ẽ', 'ĩ', 'ũ', 'ʔ', 'p', 't', 'k', 's', 'm', 'n', 'ɾ', 'w']

/-- Decidable equality for `Except`, used to evaluate embedded operations on
concrete inputs. -/
instance exceptDecEq {e a : Type} [DecidableEq e] [DecidableEq a] :
    DecidableEq (Except e a) := fun x y =>
  match x, y with
  | .ok v, .ok w => if h : v = w then .isTrue (by rw [h]) else .isFalse (by simp [h])
  | .error v, .error w => if h : v = w then .isTrue (by rw [h]) else .isFalse (by simp [h])
  | .ok _, .error _ => .isFalse (by simp)
  | .error _, .ok _ => .isFalse (by simp)

/-! ## SimilarityScore value object

Embedding of `value_objects/similarity_score.py`.  The frozen dataclass
constructor together with `__post_init__` validation is modelled by
`similarity_score_mk`. -/

/-- The `SimilarityScore` frozen dataclass (fields only). -/
structure SimilarityScore where
  phonological_similarity : ℚ
  morphological_similarity : ℚ
  semantic_similarity : ℚ
  overall_similarity : ℚ
deriving DecidableEq

/-- Constructing a `SimilarityScore`, including the `__post_init__`
validation: every score must lie in [0, 1] and the overall score must agree
with `0.4 * phonological + 0.3 * morphological + 0.3 * semantic` within 0.1,
otherwise a `ValidationError` is raised. -/
def similarity_score_mk (p m s o : ℚ) : Except PyError SimilarityScore :=
  if ¬(0 ≤ p ∧ p ≤ 1) ∨ ¬(0 ≤ m ∧ m ≤ 1) ∨ ¬(0 ≤ s ∧ s ≤ 1) ∨ ¬(0 ≤ o ∧ o ≤ 1) then
    .error .validationError
  else if |o - (p * (2/5) + m * (3/10) + s * (3/10))| > 1/10 then
    .error .validationError
  else .ok ⟨p, m, s, o⟩

/-- `SimilarityScore.create`: computes the overall score from the components
and constructs the (validated) value object. -/
def SimilarityScore.create (p m s : ℚ) : Except PyError SimilarityScore :=
  similarity_score_mk p m s (p * (2/5) + m * (3/10) + s * (3/10))

/-- `SimilarityScore.is_high_similarity`. -/
def SimilarityScore.is_high_similarity (s : SimilarityScore) : Bool :=
  decide (s.overall_similarity ≥ 7/10)

/-- `SimilarityScore.is_moderate_similarity`. -/
def SimilarityScore.is_moderate_similarity (s : SimilarityScore) : Bool :=
  decide (2/5 ≤ s.overall_similarity ∧ s.overall_similarity < 7/10)

/-- `SimilarityScore.get_similarity_level`. -/
def SimilarityScore.get_similarity_level (s : SimilarityScore) : String :=
  if s.is_high_similarity then "high"
  else if s.is_moderate_similarity then "moderate"
  else "low"

/-! ## Word entity

Embedding of `entities/word.py`.  Identifier, timestamp and presentation
fields (id, created_at, usage_examples, synonyms, ...) play no role in the
engine and are omitted; the fields read by the engine are kept.  The
`__post_init__` validators run on construction in Python but the dataclass
fields remain mutable afterwards, so the structures here are plain records. -/

/-- `PhonologicalInfo` dataclass from `entities/word.py`. -/
structure PhonologicalInfo where
  ipa_transcription : String
  has_nasal_vowels : Bool
  has_laryngealized_vowels : Bool
  vocal_types_present : List VocalType
  number_of_syllables : ℕ
  syllable_pattern : Option String
deriving DecidableEq

/-- `MorphologicalInfo` dataclass from `entities/word.py`. -/
structure MorphologicalInfo where
  root_word : String
  is_compound : Bool
  compound_components : List String
  applied_suffixes : List String
  morphological_analysis : Option String
deriving DecidableEq

/-- `Word` entity (engine-relevant fields). -/
structure Word where
  shuar_text : String
  spanish_translation : String
  phonological_info : Option PhonologicalInfo
  morphological_info : Option MorphologicalInfo
  frequency_score : ℕ
  confidence_level : ℚ
  is_verified : Bool
deriving DecidableEq

/-! ## Similarity search service

Embedding of `similarity_search_service.py` (`SimilaritySearchService`). -/

/-- `SearchCriteria` dataclass.  `max_results` is a Python `int`, hence ℤ. -/
structure SearchCriteria where
  min_similarity_threshold : ℚ
  max_results : ℤ
  include_morphological : Bool
  include_semantic : Bool
  vocal_type_weight : ℚ
  phonological_weight : ℚ
  morphological_weight : ℚ
deriving DecidableEq

/-- The dataclass defaults of `SearchCriteria`. -/
instance : Inhabited SearchCriteria :=
  ⟨⟨3/10, 10, true, false, 2/5, 2/5, 1/5⟩⟩

/-- `SimilarWord` result record (from `value_objects/translation_result.py`). -/
structure SimilarWord where
  word : Word
  similarity : SimilarityScore
  explanation : String
deriving DecidableEq

/-- Python slicing `l[:n]` for an `int` bound: a negative bound drops
elements from the end (`stop = max(0, len + n)`). -/
def pySliceTo (n : ℤ) (l : List α) : List α :=
  if 0 ≤ n then l.take n.toNat else l.take ((l.length : ℤ) + n).toNat

/-- A single-quote character as a string (used inside generated
explanation text). -/
def sq : String := String.singleton (Char.ofNat 39)

/-- Python `str.title()` restricted to a single lowercase word (sufficient
for the level names used by the engine). -/
def pyTitle (s : String) : String :=
  match s.data with
  | [] => ""
  | c :: rest => String.mk (c.toUpper :: rest)

/-- `_extract_common_suffixes`: which of the fixed suffix names match the
end of the word (the leading dash is removed for matching). -/
def extract_common_suffixes (word : String) : List String :=
  (["-ni", "-ai", "-ka", "-ma", "-ta", "-nu", "-tu", "-chi", "-tsu"]).filter
    fun suffix => word.endsWith (suffix.drop 1)

/-- `_calculate_morphological_similarity_score`: 70/30 blend of suffix-set
Jaccard similarity and length closeness; 0.5 when the candidate has no
morphological info. -/
def calculate_morphological_similarity_score (target_word : String)
    (candidate : Word) : ℚ :=
  match candidate.morphological_info with
  | none => 1/2
  | some mi =>
    let target_suffixes := extract_common_suffixes target_word
    let candidate_suffixes := mi.applied_suffixes.dedup
    let suffix_similarity : ℚ :=
      if target_suffixes ≠ [] ∨ candidate_suffixes ≠ [] then
        let inter := target_suffixes.filter (· ∈ candidate_suffixes)
        let union := (target_suffixes ++ candidate_suffixes).dedup
        if union ≠ [] then (inter.length : ℚ) / (union.length : ℚ) else 0
      else 1/2
    let target_len := target_word.data.length
    let candidate_len := candidate.shuar_text.data.length
    let max_len := max target_len candidate_len
    let length_similarity : ℚ :=
      if max_len > 0 then
        1 - ((max target_len candidate_len - min target_len candidate_len : ℕ) : ℚ) /
          (max_len : ℚ)
      else 1
    suffix_similarity * (7/10) + length_similarity * (3/10)

/-- `_calculate_comprehensive_similarity`: phonological similarity plus
morphological similarity (default 0.5 without morphological data) plus the
fixed semantic placeholder 0.5, combined by `SimilarityScore.create`.
`target_features` is accepted but unused, as in the source. -/
def calculate_comprehensive_similarity (target_word : String)
    (target_features : PhonologicalFeatures) (candidate : Word)
    (criteria : SearchCriteria) : Except PyError SimilarityScore :=
  (calculate_phonological_similarity target_word candidate.shuar_text).bind
    fun phonological_sim =>
      let morphological_sim : ℚ :=
        if criteria.include_morphological ∧ candidate.morphological_info.isSome then
          calculate_morphological_similarity_score target_word candidate
        else 1/2
      let semantic_sim : ℚ := 1/2
      SimilarityScore.create phonological_sim morphological_sim semantic_sim

/-- `_generate_similarity_explanation`.  The `candidate_word` parameter is
unused, as in the source; the final `if explanations` branch is always taken
because a fallback entry is inserted first. -/
def generate_similarity_explanation (target_word candidate_word : String)
    (similarity : SimilarityScore) : String :=
  let explanations : List String :=
    (if similarity.phonological_similarity > 7/10 then ["similar sound patterns"]
     else if similarity.phonological_similarity > 1/2 then ["some sound similarities"]
     else []) ++
    (if similarity.morphological_similarity > 7/10 then ["similar word structure"]
     else if similarity.morphological_similarity > 1/2 then ["related morphological patterns"]
     else []) ++
    (if similarity.semantic_similarity > 7/10 then ["related meaning"] else [])
  let explanations := if explanations = [] then ["general linguistic patterns"] else explanations
  let base_explanation :=
    pyTitle similarity.get_similarity_level ++ " similarity to " ++ sq ++ target_word ++ sq
  base_explanation ++ ": " ++ String.intercalate (", ") explanations

/-- The candidate loop of `find_similar_words`: skip exact (lowercased)
matches, compute the comprehensive similarity, and keep candidates whose
overall similarity reaches the threshold, in input order. -/
def similarLoop (t : String) (tf : PhonologicalFeatures) (crit : SearchCriteria) :
    List Word → Except PyError (List SimilarWord)
  | [] => .ok []
  | c :: rest =>
    if pyLowerStr c.shuar_text = t then similarLoop t tf crit rest
    else
      (calculate_comprehensive_similarity t tf c crit).bind fun sim =>
        (similarLoop t tf crit rest).map fun rest2 =>
          if sim.overall_similarity ≥ crit.min_similarity_threshold then
            { word := c, similarity := sim,
              explanation := generate_similarity_explanation t c.shuar_text sim } :: rest2
          else rest2

/-- The descending-by-overall-similarity order used to sort results. -/
def simOrder (a b : SimilarWord) : Prop :=
  b.similarity.overall_similarity ≤ a.similarity.overall_similarity

instance : DecidableRel simOrder := fun _ _ =>
  inferInstanceAs (Decidable (_ ≤ _))

/-- `SimilaritySearchService.find_similar_words`: validation failure on an
empty/blank target, empty result on no candidates; otherwise filter by
threshold, sort by overall similarity (descending, stable) and truncate to
`max_results`. -/
def find_similar_words (target_word : String) (candidate_words : List Word)
    (criteria : Option SearchCriteria) : Except PyError (List SimilarWord) :=
  if target_word = "" ∨ pyStrip target_word = "" then .error .validationError
  else if candidate_words = [] then .ok []
  else
    (analyze_word (pyStrip (pyLowerStr target_word))).bind fun tf =>
      (similarLoop (pyStrip (pyLowerStr target_word)) tf (criteria.getD default)
        candidate_words).map fun sims =>
        pySliceTo (criteria.getD default).max_results (List.insertionSort simOrder sims)

/-- `_calculate_rhyme_similarity`: position-wise match ratio of the last
`min(len1, len2, 2 * min_syllables_match)` characters, plus a 0.2 bonus for
equal syllable counts, capped at 1. -/
def calculate_rhyme_similarity (word1 word2 : String)
    (features1 features2 : PhonologicalFeatures) (min_syllables_match : ℕ) : ℚ :=
  let min_len := min word1.data.length word2.data.length
  let max_match_len := min min_len (min_syllables_match * 2)
  if max_match_len = 0 then 0
  else
    let ending1 := word1.data.drop (word1.data.length - max_match_len)
    let ending2 := word2.data.drop (word2.data.length - max_match_len)
    let matched := ((ending1.zip ending2).filter fun p => p.1 = p.2).length
    let similarity : ℚ := (matched : ℚ) / (max_match_len : ℚ) +
      (if features1.syllable_count = features2.syllable_count then (1/5 : ℚ) else 0)
    min 1 similarity

/-- The candidate loop of `find_rhyming_words`: every candidate is analyzed
(which can raise `ValidationError` on blank candidate text), and candidates
with rhyme similarity above 0.6 are kept in input order. -/
def rhymeLoop (t : String) (tf : PhonologicalFeatures) (msm : ℕ) :
    List Word → Except PyError (List Word)
  | [] => .ok []
  | c :: rest =>
    (analyze_word c.shuar_text).bind fun cf =>
      (rhymeLoop t tf msm rest).map fun rest2 =>
        if calculate_rhyme_similarity t c.shuar_text tf cf msm > 3/5 then c :: rest2
        else rest2

/-- `SimilaritySearchService.find_rhyming_words`: an empty target returns
the empty list immediately; otherwise the (lowercased, stripped) target and
every candidate are analyzed. -/
def find_rhyming_words (target_word : String) (candidate_words : List Word)
    (min_syllables_match : ℕ) : Except PyError (List Word) :=
  if target_word = "" then .ok []
  else
    (analyze_word (pyStrip (pyLowerStr target_word))).bind fun tf =>
      rhymeLoop (pyStrip (pyLowerStr target_word)) tf min_syllables_match
        candidate_words

/-- `_count_phonological_differences`: `none` models the `float('inf')`
returned when either word lacks phonological info; otherwise the sum of the
vocal-type symmetric difference, a syllable-count mismatch flag and the
position-wise IPA character differences. -/
def count_phonological_differences (word1 word2 : Word) : Option ℕ :=
  match word1.phonological_info, word2.phonological_info with
  | some i1, some i2 =>
    let types1 := i1.vocal_types_present.dedup
    let types2 := i2.vocal_types_present.dedup
    let sym := (types1.filter (· ∉ types2)).length + (types2.filter (· ∉ types1)).length
    let syll := if i1.number_of_syllables ≠ i2.number_of_syllables then 1 else 0
    let ipa1 := i1.ipa_transcription.data
    let ipa2 := i2.ipa_transcription.data
    let max_len := max ipa1.length ipa2.length
    let char_differences :=
      ((List.range max_len).filter fun i => decide (ipa1[i]? ≠ ipa2[i]?)).length
    some (sym + syll + char_differences)
  | _, _ => none

/-- All ordered pairs `(words[i], words[j])` with `i < j`, mirroring the
nested loops of `find_minimal_pairs`. -/
def wordPairs : List Word → List (Word × Word)
  | [] => []
  | w :: rest => rest.map (fun w2 => (w, w2)) ++ wordPairs rest

/-- `SimilaritySearchService.find_minimal_pairs`: keep the pairs whose
difference count is at most `max_differences`; a pair with missing
phonological info counts as infinitely different (`none`) and is never kept
(`inf <= n` is false in Python). -/
def find_minimal_pairs (words : List Word) (max_differences : ℤ) :
    List (Word × Word) :=
  (wordPairs words).filter fun p =>
    match count_phonological_differences p.1 p.2 with
    | none => false
    | some d => decide ((d : ℤ) ≤ max_differences)

/-! ## Language detection service

Embedding of `language_detection_service.py` (`LanguageDetectionService`).
The Python feature dictionary (string keys to float scores) is modelled as a
record with one field per key. -/

/-- `Language` enum from `entities/translation.py`. -/
inductive Language where
  | shuar
  | spanish
deriving DecidableEq

/-- `DetectionConfidence` enum. -/
inductive DetectionConfidence where
  | high
  | medium
  | low
deriving DecidableEq

/-- `LanguageDetectionService.SHUAR_VOWELS`. -/
def SHUAR_VOWELS : List Char :=
  ['a', 'e', 'i', 'u', 'á', 'é', 'í', 'ú', 'ä', 'ë', 'ï', 'ü']

/-- `LanguageDetectionService.SHUAR_NASAL_VOWELS`. -/
def SHUAR_NASAL_VOWELS : List Char := ['á', 'é', 'í', 'ú']

/-- `LanguageDetectionService.SHUAR_LARYNGEALIZED_VOWELS`. -/
def SHUAR_LARYNGEALIZED_VOWELS : List Char := ['ä', 'ë', 'ï', 'ü']

/-- `LanguageDetectionService.SHUAR_DIGRAPHS` as character pairs. -/
def SHUAR_DIGRAPHS : List (Char × Char) := [('c', 'h'), ('s', 'h'), ('t', 's')]

/-- `LanguageDetectionService.SPANISH_VOWELS`. -/
def SPANISH_VOWELS : List Char :=
  ['a', 'e', 'i', 'o', 'u', 'á', 'é', 'í', 'ó', 'ú', 'ü']

/-- `LanguageDetectionService.SPANISH_DIGRAPHS` as character pairs. -/
def SPANISH_DIGRAPHS : List (Char × Char) := [('c', 'h'), ('l', 'l'), ('r', 'r')]

/-- `LanguageDetectionService.SHUAR_COMMON_WORDS`. -/
def SHUAR_COMMON_WORDS : List String :=
  ["yawa", "jea", "shuar", "arutam", "núka", "apa", "entsa",
   "tsaa", "saant", "kunkuk", "chichim", "wampish", "nuna",
   "mama", "tau", "inia", "uunt", "yä", "takuni", "tsáanin"]

/-- `LanguageDetectionService.SPANISH_COMMON_WORDS`. -/
def SPANISH_COMMON_WORDS : List String :=
  ["el", "la", "de", "que", "y", "a", "en", "un", "es", "se",
   "no", "te", "lo", "le", "da", "su", "por", "son", "con", "para",
   "casa", "perro", "agua", "bueno", "grande", "persona", "sol"]

/-- `LanguageDetectionService.SHUAR_SUFFIXES` (the names carry a leading
dash, and `str.endswith` is applied to the names as-is). -/
def SHUAR_SUFFIXES : List String :=
  ["-ni", "-ai", "-ka", "-ma", "-ta", "-nu", "-tu", "-chi"]

/-- `LanguageDetectionService.SPANISH_SUFFIXES`. -/
def SPANISH_SUFFIXES : List String :=
  ["-ción", "-dad", "-mente", "-oso", "-osa", "-ado", "-ada", "-ero", "-era"]

/-- The named feature scores computed by `_analyze_features` (the Python
`features` dictionary, one field per key). -/
structure DetectionFeatures where
  shuar_nasal_vowels : ℚ
  shuar_laryngealized_vowels : ℚ
  shuar_digraphs : ℚ
  spanish_digraphs : ℚ
  has_spanish_o : ℚ
  vowel_system_shuar : ℚ
  vowel_system_spanish : ℚ
  shuar_common_words : ℚ
  spanish_common_words : ℚ
  shuar_suffixes : ℚ
  spanish_suffixes : ℚ
  consonant_density : ℚ
  vowel_diversity : ℚ
  avg_word_length : ℚ
  syllable_complexity : ℚ
deriving DecidableEq

/-- `LanguageDetectionResult` dataclass. -/
structure LanguageDetectionResult where
  detected_language : Language
  confidence : ℚ
  confidence_level : DetectionConfidence
  features_detected : DetectionFeatures
  explanation : String
deriving DecidableEq

/-- `_count_feature_ratio`: character-count ratio with a zero guard. -/
def count_feature_ratio (text : List Char) (feature_set : List Char)
    (total_chars : ℕ) : ℚ :=
  if total_chars = 0 then 0
  else ((text.filter (· ∈ feature_set)).length : ℚ) / (total_chars : ℚ)

/-- `_count_digraph_ratio`: summed digraph counts per word with a zero
guard. -/
def count_digraph_ratio (text : List Char) (digraphs : List (Char × Char))
    (total_words : ℕ) : ℚ :=
  if total_words = 0 then 0
  else ((digraphs.map fun p => countSub2 p.1 p.2 text).sum : ℚ) / (total_words : ℚ)

/-- `_analyze_vowel_system_shuar`.  The `'o'` penalty can never fire because
`'o'` is not in `SHUAR_VOWELS`, but it is kept as in the source. -/
def analyze_vowel_system_shuar (text : List Char) : ℚ :=
  let vowels_found := (text.filter (· ∈ SHUAR_VOWELS)).dedup
  let base_found := vowels_found.filter (· ∈ (['a', 'e', 'i', 'u'] : List Char))
  let score : ℚ := (base_found.length : ℚ) / 4 +
    (if vowels_found.any (· ∈ SHUAR_NASAL_VOWELS) then (3/10 : ℚ) else 0) +
    (if vowels_found.any (· ∈ SHUAR_LARYNGEALIZED_VOWELS) then (2/5 : ℚ) else 0) -
    (if 'o' ∈ vowels_found then (1/2 : ℚ) else 0)
  max 0 (min 1 score)

/-- `_analyze_vowel_system_spanish`. -/
def analyze_vowel_system_spanish (text : List Char) : ℚ :=
  let vowels_found := (text.filter (· ∈ SPANISH_VOWELS)).dedup
  let base_found := vowels_found.filter (· ∈ (['a', 'e', 'i', 'o', 'u'] : List Char))
  let score : ℚ := (base_found.length : ℚ) / 5 +
    (if 'o' ∈ vowels_found then (3/10 : ℚ) else 0) -
    (if vowels_found.any (· ∈ SHUAR_LARYNGEALIZED_VOWELS) then (3/5 : ℚ) else 0)
  max 0 (min 1 score)

/-- `_count_common_words`. -/
def count_common_words (words : List String) (common_set : List String) : ℚ :=
  if words = [] then 0
  else ((words.filter (· ∈ common_set)).length : ℚ) / (words.length : ℚ)

/-- `_count_suffix_patterns` (each word counted at most once). -/
def count_suffix_patterns (words : List String) (suffix_set : List String) : ℚ :=
  if words = [] then 0
  else ((words.filter fun w => suffix_set.any fun suf => w.endsWith suf).length : ℚ) /
    (words.length : ℚ)

/-- Python `str.isalpha`, modelled for ASCII letters and the accented
letters appearing in the engine's alphabets (identity of behaviour on the
character sets the engine manipulates). -/
def pyIsAlpha (c : Char) : Bool :=
  ('a' ≤ c && c ≤ 'z') || ('A' ≤ c && c ≤ 'Z') ||
  c ∈ (['á', 'é', 'í', 'ó', 'ú', 'ü', 'ä', 'ë', 'ï', 'ñ'] : List Char)

/-- `_calculate_consonant_density`. -/
def calculate_consonant_density (text : List Char) : ℚ :=
  if text = [] then 0
  else
    let consonants := (text.filter fun c => pyIsAlpha c && !(c ∈ SHUAR_VOWELS : Bool)).length
    let total_letters := (text.filter pyIsAlpha).length
    if total_letters > 0 then (consonants : ℚ) / (total_letters : ℚ) else 0

/-- `_calculate_vowel_diversity`. -/
def calculate_vowel_diversity (text : List Char) : ℚ :=
  let vowels_found := (text.filter fun c => c ∈ SHUAR_VOWELS ∨ c ∈ SPANISH_VOWELS).dedup
  (vowels_found.length : ℚ) / (SPANISH_VOWELS.length : ℚ)

/-- The character class of the consonant-cluster regex
`[bcdfghjklmnpqrstvwxyz]` in `_estimate_syllable_complexity`. -/
def CLUSTER_REGEX_CHARS : List Char :=
  ['b', 'c', 'd', 'f', 'g', 'h', 'j', 'k', 'l', 'm', 'n', 'p', 'q', 'r', 's',
   't', 'v', 'w', 'x', 'y', 'z']

/-- Number of maximal runs of length at least 2 of characters satisfying
`p` (what `re.findall` with a `{2,}` quantifier returns); the accumulator is
the current run length. -/
def runsGE2 (p : Char → Bool) : List Char → ℕ → ℕ
  | [], run => if run ≥ 2 then 1 else 0
  | c :: rest, run =>
    if p c then runsGE2 p rest (run + 1)
    else (if run ≥ 2 then 1 else 0) + runsGE2 p rest 0

/-- `_estimate_syllable_complexity`: average per word of
(consonant-cluster count / word length). -/
def estimate_syllable_complexity (text : String) : ℚ :=
  let words := pySplit text
  if words = [] then 0
  else
    ((words.map fun w =>
      if w.data.length > 0 then
        ((runsGE2 (· ∈ CLUSTER_REGEX_CHARS) w.data 0 : ℕ) : ℚ) / (w.data.length : ℚ)
      else 0).sum) / (words.length : ℚ)

/-- `_analyze_features` applied to the lowercased, stripped text. -/
def analyze_features (text : String) : DetectionFeatures :=
  let words := pySplit text
  let total_chars := (text.data.filter (· ≠ ' ')).length
  { shuar_nasal_vowels := count_feature_ratio text.data SHUAR_NASAL_VOWELS total_chars
    shuar_laryngealized_vowels :=
      count_feature_ratio text.data SHUAR_LARYNGEALIZED_VOWELS total_chars
    shuar_digraphs := count_digraph_ratio text.data SHUAR_DIGRAPHS words.length
    spanish_digraphs := count_digraph_ratio text.data SPANISH_DIGRAPHS words.length
    has_spanish_o := if 'o' ∈ text.data then 1 else 0
    vowel_system_shuar := analyze_vowel_system_shuar text.data
    vowel_system_spanish := analyze_vowel_system_spanish text.data
    shuar_common_words := count_common_words words SHUAR_COMMON_WORDS
    spanish_common_words := count_common_words words SPANISH_COMMON_WORDS
    shuar_suffixes := count_suffix_patterns words SHUAR_SUFFIXES
    spanish_suffixes := count_suffix_patterns words SPANISH_SUFFIXES
    consonant_density := calculate_consonant_density text.data
    vowel_diversity := calculate_vowel_diversity text.data
    avg_word_length :=
      if words = [] then 0
      else ((words.map fun w => w.data.length).sum : ℚ) / (words.length : ℚ)
    syllable_complexity := estimate_syllable_complexity text }

/-- `_calculate_shuar_score`: non-negative weighted sum of the
Shuar-indicative features. -/
def calculate_shuar_score (features : DetectionFeatures) : ℚ :=
  features.shuar_nasal_vowels * 3 +
  features.shuar_laryngealized_vowels * 4 +
  features.vowel_system_shuar * 2 +
  features.shuar_common_words * 3 +
  features.shuar_suffixes * 2 +
  features.shuar_digraphs * (3/2) +
  (if features.avg_word_length > 4 then (1 : ℚ) else 0)

/-- `_calculate_spanish_score`: weighted sum with penalties for Shuar
features, floored at 0. -/
def calculate_spanish_score (features : DetectionFeatures) : ℚ :=
  max 0
    (features.has_spanish_o * 3 +
     features.vowel_system_spanish * 2 +
     features.spanish_common_words * 3 +
     features.spanish_suffixes * 2 +
     features.spanish_digraphs * (3/2) -
     features.shuar_laryngealized_vowels * 2 -
     features.shuar_nasal_vowels * 1)

/-- `_get_confidence_level`: bucket the confidence at the 0.8 / 0.5
thresholds with strict comparisons. -/
def get_confidence_level (confidence : ℚ) : DetectionConfidence :=
  if confidence > 4/5 then .high
  else if confidence > 1/2 then .medium
  else .low

/-- Decimal rendering of a rational with two digits, modelling the `:.2f`
format used inside the explanation string (ties rounded up rather than
to-even). -/
def formatQ2 (q : ℚ) : String :=
  let scaled : ℤ := ⌊q * 100 + 1/2⌋
  let whole := scaled / 100
  let frac := (scaled % 100).toNat
  toString whole ++ "." ++ (if frac < 10 then "0" else "") ++ toString frac

/-- The `.value.title()` rendering of a `Language`. -/
def languageTitle : Language → String
  | .shuar => "Shuar"
  | .spanish => "Spanish"

/-- `_generate_explanation`. -/
def generate_explanation (detected_language : Language)
    (features : DetectionFeatures) (shuar_score spanish_score : ℚ) : String :=
  let explanations : List String :=
    match detected_language with
    | .shuar =>
      (if features.shuar_laryngealized_vowels > 0 then
        ["Contains laryngealized vowels (ä, ë, ï, ü) unique to Shuar"] else []) ++
      (if features.shuar_nasal_vowels > 0 then
        ["Contains nasal vowels (á, é, í, ú) typical of Shuar"] else []) ++
      (if features.shuar_common_words > 0 then
        ["Contains common Shuar words"] else []) ++
      (if features.has_spanish_o = 0 then
        ["Lacks the vowel " ++ sq ++ "o" ++ sq ++ " which is absent in Shuar"] else [])
    | .spanish =>
      (if features.has_spanish_o > 0 then
        ["Contains the vowel " ++ sq ++ "o" ++ sq ++
          " which is present in Spanish but not Shuar"] else []) ++
      (if features.spanish_common_words > 0 then
        ["Contains common Spanish words"] else []) ++
      (if features.spanish_suffixes > 0 then
        ["Contains Spanish morphological patterns"] else [])
  let base_explanation := "Detected as " ++ languageTitle detected_language ++
    " (Shuar score: " ++ formatQ2 shuar_score ++
    ", Spanish score: " ++ formatQ2 spanish_score ++ ")"
  if explanations ≠ [] then
    base_explanation ++ ". " ++ String.intercalate ("; ") explanations ++ "."
  else
    base_explanation ++ ". Based on general linguistic patterns."

/-- `LanguageDetectionService.detect_language`: `ValidationError` on
empty/blank text; the final confidence division
`winner_score / (shuar_score + spanish_score)` raises `ZeroDivisionError`
when both scores are zero (there is no guard on this division in the
source); ties go to Spanish because Shuar wins only on strict `>`. -/
def detect_language (text : String) : Except PyError LanguageDetectionResult :=
  if text = "" ∨ pyStrip text = "" then .error .validationError
  else
    let t := pyStrip (pyLowerStr text)
    let features := analyze_features t
    let shuar_score := calculate_shuar_score features
    let spanish_score := calculate_spanish_score features
    if shuar_score + spanish_score = 0 then .error .zeroDivisionError
    else
      let detected_language :=
        if shuar_score > spanish_score then Language.shuar else Language.spanish
      let confidence :=
        if shuar_score > spanish_score then shuar_score / (shuar_score + spanish_score)
        else spanish_score / (shuar_score + spanish_score)
      .ok { detected_language := detected_language
            confidence := confidence
            confidence_level := get_confidence_level confidence
            features_detected := features
            explanation :=
              generate_explanation detected_language features shuar_score spanish_score }

/-! ## Translation scoring service

Embedding of `translation_scoring_service.py` (`TranslationScoringService`)
and the entities it reads.  The formulas use `math.log`, so this part is
modelled over ℝ (and is `noncomputable`); concrete evaluations in the
theorems below use `usage_count = 0`, where the logarithm is `log 1 = 0`. -/

/-- `TranslationStatus` enum from `entities/translation.py`. -/
inductive TranslationStatus where
  | pending
  | approved
  | rejected
  | needs_review
deriving DecidableEq

/-- `TranslationContext` dataclass. -/
structure TranslationContext where
  domain : Option String
  register : Option String
  dialect : Option String
  cultural_notes : Option String
deriving DecidableEq

/-- `Translation` entity (engine-relevant fields; identifier and timestamp
fields are omitted, `approved_by` keeps only the information whether an
approver id is present). -/
structure Translation where
  source_text : String
  target_text : String
  confidence_score : ℝ
  context : Option TranslationContext
  usage_count : ℕ
  average_rating : ℝ
  total_ratings : ℕ
  status : TranslationStatus
  approved_by : Option ℕ

/-- `UserRole` enum from `entities/feedback.py`. -/
inductive UserRole where
  | visitor
  | community_member
  | verified_speaker
  | expert
  | admin
deriving DecidableEq

/-- `Feedback` entity (engine-relevant fields). -/
structure Feedback where
  user_role : UserRole
  rating : Option ℤ
  comment : Option String
  suggested_translation : Option String
  cultural_context : Option String
  is_from_native_speaker : Bool
deriving DecidableEq

/-- `TranslationScoringService.FEEDBACK_WEIGHTS` (total on the enum, so the
`.get(role, 1.0)` default is unreachable). -/
noncomputable def FEEDBACK_WEIGHTS : UserRole → ℝ
  | .visitor => 1
  | .community_member => 1.2
  | .verified_speaker => 2
  | .expert => 3
  | .admin => 3

/-- `TranslationScoringService.COMMUNITY_RATING_WEIGHT`. -/
noncomputable def COMMUNITY_RATING_WEIGHT : ℝ := 0.25

/-- `TranslationScoringService.EXPERT_APPROVAL_WEIGHT`. -/
noncomputable def EXPERT_APPROVAL_WEIGHT : ℝ := 0.30

/-- `TranslationScoringService.PHONOLOGICAL_ACCURACY_WEIGHT`. -/
noncomputable def PHONOLOGICAL_ACCURACY_WEIGHT : ℝ := 0.15

/-- `TranslationScoringService.CULTURAL_APPROPRIATENESS_WEIGHT`. -/
noncomputable def CULTURAL_APPROPRIATENESS_WEIGHT : ℝ := 0.15

/-- `_get_status_confidence` (the status table is total on the enum, so the
`.get(status, 0.5)` default is unreachable). -/
noncomputable def get_status_confidence (translation : Translation) : ℝ :=
  match translation.status with
  | .approved => 0.9
  | .needs_review => 0.6
  | .pending => 0.4
  | .rejected => 0.1

/-- `_calculate_rating_confidence`: rescaled average rating blended with a
reliability factor that saturates at 10 ratings. -/
noncomputable def calculate_rating_confidence (average_rating : ℝ)
    (total_ratings : ℕ) : ℝ :=
  if total_ratings = 0 then 0.5
  else
    let rating_confidence := (average_rating - 1) / 4
    let reliability_factor := min 1 ((total_ratings : ℝ) / 10)
    rating_confidence * reliability_factor + 0.5 * (1 - reliability_factor)

/-- `_calculate_usage_confidence`: 0.3 base plus a logarithmic ramp. -/
noncomputable def calculate_usage_confidence (usage_count : ℕ) : ℝ :=
  if usage_count = 0 then 0.3
  else min 1 (0.3 + 0.7 * (Real.log ((usage_count : ℝ) + 1) / Real.log 101))

/-- `_calculate_word_based_confidence`. -/
noncomputable def calculate_word_based_confidence (word : Word) : ℝ :=
  min 1 (0.5 + (if word.is_verified then (0.3 : ℝ) else 0) +
    (word.confidence_level : ℝ) * 0.2 +
    (if word.frequency_score > 10 then (0.1 : ℝ) else 0))

/-- The role weight of one feedback item, including the native-speaker
multiplier. -/
noncomputable def feedbackItemWeight (f : Feedback) : ℝ :=
  FEEDBACK_WEIGHTS f.user_role * (if f.is_from_native_speaker then 1.5 else 1)

/-- `_calculate_feedback_confidence`: role-weighted average of the rescaled
ratings of the rated feedback items; 0.5 when there is no rated feedback. -/
noncomputable def calculate_feedback_confidence (feedback_list : List Feedback) : ℝ :=
  if feedback_list = [] then 0.5
  else
    let rated := feedback_list.filterMap fun f =>
      f.rating.map fun r => ((r : ℝ), feedbackItemWeight f)
    let total_weight := (rated.map fun p => p.2).sum
    if total_weight = 0 then 0.5
    else (rated.map fun p => ((p.1 - 1) / 4) * p.2).sum / total_weight

/-- `TranslationScoringService.calculate_translation_confidence`: weighted
average of the applicable signals.  The status and usage factors are always
present, the rating factor requires at least one rating, the word and
feedback factors require the optional inputs (Python treats `None` and the
empty list alike for `feedback_list`).  The `total_weight == 0` default of
0.5 is therefore unreachable. -/
noncomputable def calculate_translation_confidence (translation : Translation)
    (source_word : Option Word) (feedback_list : Option (List Feedback)) : ℝ :=
  let confidence_factors : List (ℝ × ℝ) :=
    [(get_status_confidence translation, (0.3 : ℝ))] ++
    (if 0 < translation.total_ratings then
      [(calculate_rating_confidence translation.average_rating translation.total_ratings,
        (0.25 : ℝ))]
    else []) ++
    [(calculate_usage_confidence translation.usage_count, (0.15 : ℝ))] ++
    (match source_word with
     | some w => [(calculate_word_based_confidence w, (0.15 : ℝ))]
     | none => []) ++
    (match feedback_list with
     | some (f :: fs) => [(calculate_feedback_confidence (f :: fs), (0.15 : ℝ))]
     | _ => [])
  let total_weight := (confidence_factors.map fun p => p.2).sum
  if total_weight = 0 then 0.5
  else min 1 ((confidence_factors.map fun p => p.1 * p.2).sum / total_weight)

/-- `_calculate_weighted_community_rating`: role-weighted mean of the raw
ratings; 0.0 without (rated) feedback. -/
noncomputable def calculate_weighted_community_rating
    (feedback_list : List Feedback) : ℝ :=
  if feedback_list = [] then 0
  else
    let rated := feedback_list.filterMap fun f =>
      f.rating.map fun r => ((r : ℝ), feedbackItemWeight f)
    let total_weight := (rated.map fun p => p.2).sum
    if total_weight = 0 then 0
    else (rated.map fun p => p.1 * p.2).sum / total_weight

/-- `_calculate_overall_quality`: a community rating of 0 is replaced by a
neutral 0.5 while positive ratings are rescaled by `(rating - 1) / 4`;
weighted sum plus expert bonus and capped logarithmic usage bonus, clamped
to 1. -/
noncomputable def calculate_overall_quality (confidence_score community_rating : ℝ)
    (expert_approval : Bool) (usage_frequency : ℕ)
    (phonological_accuracy cultural_appropriateness : ℝ) : ℝ :=
  let normalized_rating := if community_rating > 0 then (community_rating - 1) / 4 else 0.5
  let expert_bonus := if expert_approval then (0.2 : ℝ) else 0
  let usage_factor := min 0.2 (Real.log ((usage_frequency : ℝ) + 1) / 25)
  min 1
    (confidence_score * COMMUNITY_RATING_WEIGHT +
     normalized_rating * EXPERT_APPROVAL_WEIGHT +
     phonological_accuracy * PHONOLOGICAL_ACCURACY_WEIGHT +
     cultural_appropriateness * CULTURAL_APPROPRIATENESS_WEIGHT +
     expert_bonus + usage_factor)

/-! ## Concrete inputs used to evaluate the embedded operations -/

/-- A candidate word with text `e` and no optional info. -/
def wE : Word := ⟨"e", "x", none, none, 0, 1/2, false⟩

/-- A candidate word with text `i` and no optional info. -/
def wI : Word := ⟨"i", "x", none, none, 0, 1/2, false⟩

/-- A candidate word whose Shuar text is a single space (blank but
non-empty). -/
def wBlank : Word := ⟨" ", "x", none, none, 0, 1/2, false⟩

/-- Search criteria with a negative `max_results` (allowed by the
unvalidated dataclass). -/
def c7crit : SearchCriteria := ⟨3/10, -1, true, false, 2/5, 2/5, 1/5⟩

/-- The result list of a concrete successful `find_similar_words` run. -/
def c7out : List SimilarWord :=
  (find_similar_words ("a") [wE, wI] none).toOption.getD []

/-- Phonological info shared by the concrete minimal-pair words. -/
def c9info : PhonologicalInfo := ⟨"aka", false, false, [.oral], 2, some ("VCV")⟩

/-- First concrete word with phonological info. -/
def c9w1 : Word := ⟨"aka", "x", some c9info, none, 0, 1/2, false⟩

/-- Second concrete word with phonological info. -/
def c9w2 : Word := ⟨"aka", "y", some c9info, none, 0, 1/2, false⟩

/-- An approved translation with no ratings and no usage. -/
noncomputable def tApproved : Translation :=
  ⟨"nuka", "hoja", 0.5, none, 0, 0, 0, .approved, none⟩

/-- A needs-review translation with no ratings and no usage. -/
noncomputable def tNeedsReview : Translation :=
  ⟨"nuka", "hoja", 0.5, none, 0, 0, 0, .needs_review, none⟩

/-! ## Supporting lemmas -/

lemma mapChar_safe : ∀ c ∈ ipaSafeChars, ∀ d ∈ ipaMapChar c, d ∈ ipaStableChars := by decide

lemma mapChar_stable_id : ∀ c ∈ ipaStableChars, ipaMapChar c = [c] := by decide

lemma digraph_safe : ∀ c1 ∈ ipaSafeChars, ∀ c2 ∈ ipaSafeChars,
    isDigraphPair c1 c2 = true → c1 = 't' ∧ c2 = 's' := by decide

lemma digraph_stable : ∀ c1 ∈ ipaStableChars, ∀ c2 ∈ ipaStableChars,
    isDigraphPair c1 c2 = true → c1 = 't' ∧ c2 = 's' := by decide

lemma lower_safe_id : ∀ c ∈ ipaSafeChars, pyLowerChar c = c := by decide

lemma lower_stable_id : ∀ c ∈ ipaStableChars, pyLowerChar c = c := by decide

lemma safe_not_space : ∀ c ∈ ipaSafeChars, pyIsSpace c = false := by decide

lemma stable_not_space : ∀ c ∈ ipaStableChars, pyIsSpace c = false := by decide

lemma dropWhile_eq_self_of (p : Char → Bool) (l : List Char)
    (h : ∀ c ∈ l, p c = false) : l.dropWhile p = l := by
  cases l with
  | nil => rfl
  | cons a t => rw [List.dropWhile_cons, if_neg]; simp [h a (by simp)]

lemma pyStripList_eq_self (l : List Char) (h : ∀ c ∈ l, pyIsSpace c = false) :
    pyStripList l = l := by
  unfold pyStripList
  rw [dropWhile_eq_self_of _ _ h,
    dropWhile_eq_self_of _ _ (fun c hc => h c (List.mem_reverse.mp hc)),
    List.reverse_reverse]

lemma ipaCore_safe_mem (l : List Char) (h : ∀ c ∈ l, c ∈ ipaSafeChars) :
    ∀ d ∈ ipaCore l, d ∈ ipaStableChars := by
  induction l using ipaCore.induct with
  | case1 => simp [ipaCore]
  | case2 c =>
    rw [ipaCore]
    exact mapChar_safe c (h c (by simp))
  | case3 c1 c2 rest hdg ih =>
    rw [ipaCore, if_pos hdg]
    intro d hd
    rcases List.mem_append.mp hd with hd | hd
    · obtain ⟨h1, h2⟩ := digraph_safe c1 (h c1 (by simp)) c2 (h c2 (by simp)) hdg
      subst h1; subst h2
      simp [ipaMapDigraph] at hd
      rcases hd with rfl | rfl <;> decide
    · exact ih (fun c hc => h c (by simp [hc])) d hd
  | case4 c1 c2 rest hdg ih =>
    rw [ipaCore, if_neg hdg]
    intro d hd
    rcases List.mem_append.mp hd with hd | hd
    · exact mapChar_safe c1 (h c1 (by simp)) d hd
    · exact ih (fun c hc => h c (by simp at hc ⊢; tauto)) d hd

lemma ipaCore_stable_fixed (l : List Char) (h : ∀ c ∈ l, c ∈ ipaStableChars) :
    ipaCore l = l := by
  induction l using ipaCore.induct with
  | case1 => rfl
  | case2 c => rw [ipaCore]; exact mapChar_stable_id c (h c (by simp))
  | case3 c1 c2 rest hdg ih =>
    rw [ipaCore, if_pos hdg]
    obtain ⟨h1, h2⟩ := digraph_stable c1 (h c1 (by simp)) c2 (h c2 (by simp)) hdg
    subst h1; subst h2
    rw [ih (fun c hc => h c (by simp [hc]))]
    rfl
  | case4 c1 c2 rest hdg ih =>
    rw [ipaCore, if_neg hdg]
    rw [mapChar_stable_id c1 (h c1 (by simp)), ih (fun c hc => h c (by simp at hc ⊢; tauto))]
    rfl

lemma generate_ipa_data (w : String) (hw : w ≠ "") (h : ∀ c ∈ w.data, c ∈ ipaSafeChars) :
    generate_ipa_transcription w = String.mk (ipaCore w.data) := by
  unfold generate_ipa_transcription
  rw [if_neg hw]
  have hmap : w.data.map pyLowerChar = w.data := by
    rw [List.map_congr_left (fun c hc => lower_safe_id c (h c hc)), List.map_id']
  have : (pyStrip (pyLowerStr w)).data = w.data := by
    show pyStripList (w.data.map pyLowerChar) = w.data
    rw [hmap]
    exact pyStripList_eq_self _ (fun c hc => safe_not_space c (h c hc))
  rw [this]

lemma analyze_word_eq_ok (w : String) (h1 : w ≠ "") (h2 : pyStrip w ≠ "") :
    analyze_word w = .ok
      { vocal_types := detect_vocal_types (pyStrip (pyLowerStr w)).data
        has_digraphs := (detect_digraphs (pyStrip (pyLowerStr w)).data).length > 0
        digraphs_present := detect_digraphs (pyStrip (pyLowerStr w)).data
        consonant_clusters := detect_consonant_clusters (pyStrip (pyLowerStr w)).data
        syllable_count := count_syllables (pyStrip (pyLowerStr w)).data
        syllable_pattern := analyze_syllable_pattern (pyStrip (pyLowerStr w)).data
        phonological_complexity :=
          calculate_phonological_complexity
            (detect_vocal_types (pyStrip (pyLowerStr w)).data)
            (detect_digraphs (pyStrip (pyLowerStr w)).data)
            (detect_consonant_clusters (pyStrip (pyLowerStr w)).data)
            (count_syllables (pyStrip (pyLowerStr w)).data) } := by
  unfold analyze_word
  rw [if_neg (by tauto)]

lemma vocal_type_similarity_self (ts : List VocalType) (h : ts.Nodup) :
    calculate_vocal_type_similarity ts ts = 1 := by
  unfold calculate_vocal_type_similarity
  by_cases hts : ts = []
  · rw [if_pos ⟨hts, hts⟩]
  · rw [if_neg (by tauto)]
    have hfilter : ts.filter (fun c => decide (c ∈ ts)) = ts :=
      List.filter_eq_self.mpr (fun a ha => by simpa using ha)
    have hdedup : (ts ++ ts).dedup.length = ts.length := by
      have h0 : (ts ++ ts).dedup.length = (ts ++ ts).toFinset.card := by
        rw [List.card_toFinset]
      rw [h0, List.toFinset_append, Finset.union_self, List.card_toFinset,
        List.dedup_eq_self.mpr h]
    rw [if_pos]
    · simp only [hfilter, hdedup]
      rw [div_self]
      have : ts.length ≠ 0 := by simpa using hts
      exact_mod_cast this
    · intro hc
      have h2 := congrArg List.length hc
      rw [hdedup] at h2
      simp at h2
      exact hts h2

lemma levenshtein_similarity_self (s : String) : levenshtein_similarity s s = 1 := by
  unfold levenshtein_similarity
  rw [if_pos rfl]

/-! ## Claims -/

/-- C4 counterexample: the IPA transcription is not idempotent; `y` is
transcribed to `j`, which a second pass transcribes to `h`. -/
theorem c4_ipa_not_idempotent :
    generate_ipa_transcription (generate_ipa_transcription ("y")) ≠
      generate_ipa_transcription ("y") := by decide

/-- C4 (amended): the IPA transcription is idempotent on every word over
the sub-alphabet `ipaSafeChars` (the Shuar inventory without `y`, `j`,
`c` and `h`, hence without the digraphs `ch`/`sh`): the transcription of
such a word consists of symbol-table fixed points, so a second pass
returns it unchanged. -/
theorem c4_ipa_idempotent_on_safe_alphabet (w : String)
    (h : ∀ c ∈ w.data, c ∈ ipaSafeChars) :
    generate_ipa_transcription (generate_ipa_transcription w) =
      generate_ipa_transcription w := by
  by_cases hw : w = ""
  · subst hw; rfl
  · rw [generate_ipa_data w hw h]
    set t := String.mk (ipaCore w.data) with ht
    have htdata : t.data = ipaCore w.data := rfl
    have htmem : ∀ c ∈ t.data, c ∈ ipaStableChars := by
      rw [htdata]; exact ipaCore_safe_mem w.data h
    by_cases htt : t = ""
    · rw [htt]; rfl
    · unfold generate_ipa_transcription
      rw [if_neg htt]
      have hmap : t.data.map pyLowerChar = t.data := by
        rw [List.map_congr_left (fun c hc => lower_stable_id c (htmem c hc)), List.map_id']
      have hstrip : (pyStrip (pyLowerStr t)).data = t.data := by
        show pyStripList (t.data.map pyLowerChar) = t.data
        rw [hmap]
        exact pyStripList_eq_self _ (fun c hc => stable_not_space c (htmem c hc))
      rw [hstrip, ipaCore_stable_fixed t.data htmem]

/-- C4 witness: the amended idempotence theorem applied at the concrete
safe word `ats`. -/
theorem c4_witness :
    (∀ c ∈ ("ats" : String).data, c ∈ ipaSafeChars) ∧
      generate_ipa_transcription (generate_ipa_transcription ("ats")) =
        generate_ipa_transcription ("ats") :=
  ⟨by decide, c4_ipa_idempotent_on_safe_alphabet ("ats") (by decide)⟩

/-- C8 counterexample: the similarity of the empty word with itself is 0,
not 1 (the either-empty guard fires before any analysis). -/
theorem c8_empty_self_similarity :
    calculate_phonological_similarity ("") ("") = .ok 0 ∧
      calculate_phonological_similarity ("") ("") ≠ .ok 1 := by
  constructor <;> decide

/-- C8 (amended): phonological similarity is reflexive at the maximum for
every word that is non-empty and not blank; such a word is analyzed
successfully and every component similarity of a word with itself is 1, so
the capped 30/20/25/25 blend is exactly 1. -/
theorem c8_self_similarity_one (w : String) (h1 : w ≠ "") (h2 : pyStrip w ≠ "") :
    calculate_phonological_similarity w w = .ok 1 := by
  unfold calculate_phonological_similarity
  rw [if_neg (by tauto)]
  rw [analyze_word_eq_ok w h1 h2]
  simp only [Except.bind, Except.map]
  have hvt : (detect_vocal_types (pyStrip (pyLowerStr w)).data).Nodup := List.nodup_dedup _
  rw [vocal_type_similarity_self _ hvt]
  unfold calculate_syllable_similarity calculate_pattern_similarity
    calculate_sound_similarity
  rw [if_pos rfl, if_pos rfl, levenshtein_similarity_self]
  norm_num

/-- C8 witness: the amended reflexivity theorem at the concrete word `aa`. -/
theorem c8_witness :
    (("aa" : String) ≠ "" ∧ pyStrip ("aa") ≠ "") ∧
      calculate_phonological_similarity ("aa") ("aa") = .ok 1 :=
  ⟨⟨by decide, by decide⟩, c8_self_similarity_one ("aa") (by decide) (by decide)⟩

/-- C5 counterexample: a confidence of exactly 0.5 is bucketed as low, not
medium, because the medium bucket requires a strictly greater confidence. -/
theorem c5_boundary_half_is_low :
    get_confidence_level (1/2) = DetectionConfidence.low ∧
      get_confidence_level (1/2) ≠ DetectionConfidence.medium := by
  constructor <;> with_unfolding_all decide

/-- C5 (amended): the confidence tiers are exactly: high iff
confidence > 0.8, medium iff 0.5 < confidence <= 0.8, and low iff
confidence <= 0.5 (both thresholds are strict comparisons, so exactly 0.8
buckets to medium and exactly 0.5 buckets to low, not medium). -/
theorem c5_confidence_tier_buckets (confidence : ℚ) :
    (get_confidence_level confidence = .high ↔ 4/5 < confidence) ∧
    (get_confidence_level confidence = .medium ↔
      1/2 < confidence ∧ confidence ≤ 4/5) ∧
    (get_confidence_level confidence = .low ↔ confidence ≤ 1/2) := by
  unfold get_confidence_level
  split_ifs with hh hm
  · exact ⟨⟨fun _ => hh, fun _ => rfl⟩,
      ⟨nofun, fun h => absurd hh (not_lt.mpr h.2)⟩,
      ⟨nofun, fun h => absurd hh (not_lt.mpr (le_trans h (by norm_num)))⟩⟩
  · exact ⟨⟨nofun, fun h => absurd h hh⟩,
      ⟨fun _ => ⟨hm, not_lt.mp hh⟩, fun _ => rfl⟩,
      ⟨nofun, fun h => absurd hm (not_lt.mpr h)⟩⟩
  · exact ⟨⟨nofun, fun h => absurd h hh⟩,
      ⟨nofun, fun h => absurd h.1 hm⟩,
      ⟨fun _ => not_lt.mp hm, fun _ => rfl⟩⟩

/-- C6: a successfully constructed SimilarityScore carries exactly the
given components, all four components lie in [0, 1] and the overall score
is within 0.1 of the 0.4/0.3/0.3 combination of the components; any
violation of the range or consistency condition makes the constructor
raise a ValidationError instead. -/
theorem c6_similarity_score_invariants (p m s o : ℚ) :
    (∀ sc, similarity_score_mk p m s o = .ok sc →
      sc = ⟨p, m, s, o⟩ ∧
      (0 ≤ p ∧ p ≤ 1) ∧ (0 ≤ m ∧ m ≤ 1) ∧ (0 ≤ s ∧ s ≤ 1) ∧ (0 ≤ o ∧ o ≤ 1) ∧
      |o - (p * (2/5) + m * (3/10) + s * (3/10))| ≤ 1/10) ∧
    ((¬(0 ≤ p ∧ p ≤ 1) ∨ ¬(0 ≤ m ∧ m ≤ 1) ∨ ¬(0 ≤ s ∧ s ≤ 1) ∨ ¬(0 ≤ o ∧ o ≤ 1) ∨
        1/10 < |o - (p * (2/5) + m * (3/10) + s * (3/10))|) →
      similarity_score_mk p m s o = .error .validationError) := by
  unfold similarity_score_mk
  constructor
  · intro sc hsc
    split_ifs at hsc with h1 h2
    all_goals try cases hsc
    all_goals push_neg at h1
    all_goals exact ⟨rfl, h1.1, h1.2.1, h1.2.2.1, h1.2.2.2, not_lt.mp h2⟩
  · intro hviol
    split_ifs with h1 h2
    · rfl
    · rfl
    · exfalso
      push_neg at h1
      rcases hviol with h | h | h | h | h
      · exact h ⟨h1.1.1, h1.1.2⟩
      · exact h ⟨h1.2.1.1, h1.2.1.2⟩
      · exact h ⟨h1.2.2.1.1, h1.2.2.1.2⟩
      · exact h ⟨h1.2.2.2.1, h1.2.2.2.2⟩
      · exact absurd h (not_lt.mpr (not_lt.mp h2))

/-- C6 witness: the invariants theorem applied to an accepted concrete
score and to an out-of-range concrete score (rejected). -/
theorem c6_witness :
    ((0 : ℚ) ≤ 1/2 ∧ |(1/2 : ℚ) - ((1/2) * (2/5) + (1/2) * (3/10) + (1/2) * (3/10))| ≤ 1/10) ∧
    similarity_score_mk 2 (1/2) (1/2) (1/2) = .error .validationError :=
  ⟨⟨by norm_num,
    (((c6_similarity_score_invariants (1/2) (1/2) (1/2) (1/2)).1 ⟨1/2, 1/2, 1/2, 1/2⟩
      (by with_unfolding_all decide)).2.2.2.2.2)⟩,
   (c6_similarity_score_invariants 2 (1/2) (1/2) (1/2)).2 (Or.inl (by norm_num))⟩

/-- C9: every pair returned by find_minimal_pairs has phonological info on
both sides, for every word list and every bound: a pair with missing info
gets an infinite difference count (modelled as none) and the
`inf <= max_differences` test is false, so the pair is filtered out. -/
theorem c9_minimal_pairs_have_info (words : List Word) (max_differences : ℤ)
    (p : Word × Word) (hp : p ∈ find_minimal_pairs words max_differences) :
    p.1.phonological_info.isSome ∧ p.2.phonological_info.isSome := by
  unfold find_minimal_pairs at hp
  have hcond := List.of_mem_filter hp
  cases h1 : p.1.phonological_info with
  | none =>
    cases h2 : p.2.phonological_info with
    | none => simp [count_phonological_differences, h1, h2] at hcond
    | some i2 => simp [count_phonological_differences, h1, h2] at hcond
  | some i1 =>
    cases h2 : p.2.phonological_info with
    | none => simp [count_phonological_differences, h1, h2] at hcond
    | some i2 => simp [h1, h2]

/-- C9 witness: a concrete pair of words with phonological info that
find_minimal_pairs does return. -/
theorem c9_witness :
    c9w1.phonological_info.isSome ∧ c9w2.phonological_info.isSome :=
  c9_minimal_pairs_have_info [c9w1, c9w2] 1 (c9w1, c9w2) (by with_unfolding_all decide)

/-- C10: an empty target makes find_rhyming_words return the empty list
without raising, in contrast to the ValidationError raised by analyze_word
and find_similar_words on empty input; and with a non-empty target a blank
(single-space) candidate text makes find_rhyming_words raise
ValidationError, because every candidate is analyzed. -/
theorem c10_rhyming_empty_target :
    (∀ (candidate_words : List Word) (min_syllables_match : ℕ),
      find_rhyming_words ("") candidate_words min_syllables_match = .ok []) ∧
    analyze_word ("") = .error .validationError ∧
    (∀ (candidate_words : List Word) (criteria : Option SearchCriteria),
      find_similar_words ("") candidate_words criteria = .error .validationError) ∧
    find_rhyming_words ("a") [wBlank] 1 = .error .validationError := by
  refine ⟨fun c m => ?_, by decide, fun c cr => ?_, by with_unfolding_all decide⟩
  · unfold find_rhyming_words
    rw [if_pos rfl]
  · unfold find_similar_words
    rw [if_pos (Or.inl rfl)]


instance : IsTotal SimilarWord simOrder :=
  ⟨fun a b => le_total b.similarity.overall_similarity a.similarity.overall_similarity⟩

instance : IsTrans SimilarWord simOrder :=
  ⟨fun _ _ _ h1 h2 => le_trans h2 h1⟩

lemma similarLoop_mem (t : String) (tf : PhonologicalFeatures) (crit : SearchCriteria) :
    ∀ (cands : List Word) (res : List SimilarWord),
      similarLoop t tf crit cands = .ok res →
      ∀ sw ∈ res, pyLowerStr sw.word.shuar_text ≠ t ∧
        crit.min_similarity_threshold ≤ sw.similarity.overall_similarity := by
  intro cands
  induction cands with
  | nil =>
    intro res h sw hsw
    rw [similarLoop] at h
    cases h
    simp at hsw
  | cons c rest ih =>
    intro res h sw hsw
    rw [similarLoop] at h
    split_ifs at h with hskip
    · exact ih res h sw hsw
    · cases hsim : calculate_comprehensive_similarity t tf c crit with
      | error e => rw [hsim] at h; cases h
      | ok sim =>
        rw [hsim] at h
        cases hrest : similarLoop t tf crit rest with
        | error e => rw [hrest] at h; cases h
        | ok rest2 =>
          rw [hrest] at h
          simp only [Except.bind, Except.map] at h
          cases h
          split_ifs at hsw with hth
          · rcases List.mem_cons.mp hsw with rfl | hsw2
            · exact ⟨hskip, hth⟩
            · exact ih rest2 hrest sw hsw2
          · exact ih rest2 hrest sw hsw

/-- C7 counterexample: with a (dataclass-legal) negative max_results the
returned list is longer than max_results, because Python slicing
interprets a negative stop as counting from the end. -/
theorem c7_negative_max_results :
    (find_similar_words ("a") [wE, wI] (some c7crit)).map List.length = .ok 1 ∧
      ¬((1 : ℤ) ≤ c7crit.max_results) := by
  constructor
  · with_unfolding_all decide
  · decide

/-- C7 (amended): for every non-empty target, candidate list and criteria
whose max_results is non-negative, a successful find_similar_words run
returns a list that contains no candidate whose lowercased text equals the
(normalized) target, contains only entries at or above the similarity
threshold, is sorted in descending order of overall similarity, and has
length at most max_results. -/
theorem c7_find_similar_words_contract (target_word : String)
    (candidate_words : List Word) (criteria : Option SearchCriteria)
    (out : List SimilarWord)
    (hmax : 0 ≤ (criteria.getD default).max_results)
    (hout : find_similar_words target_word candidate_words criteria = .ok out) :
    (∀ sw ∈ out,
      pyLowerStr sw.word.shuar_text ≠ pyStrip (pyLowerStr target_word) ∧
      (criteria.getD default).min_similarity_threshold ≤
        sw.similarity.overall_similarity) ∧
    List.Sorted simOrder out ∧
    (out.length : ℤ) ≤ (criteria.getD default).max_results := by
  unfold find_similar_words at hout
  split_ifs at hout with h1 h2
  · cases hout
    exact ⟨by simp, List.sorted_nil, by simpa using hmax⟩
  · cases han : analyze_word (pyStrip (pyLowerStr target_word)) with
    | error e => rw [han] at hout; cases hout
    | ok tf =>
      rw [han] at hout
      simp only [Except.bind] at hout
      cases hsl : similarLoop (pyStrip (pyLowerStr target_word)) tf
          (criteria.getD default) candidate_words with
      | error e => rw [hsl] at hout; cases hout
      | ok sims =>
        rw [hsl] at hout
        simp only [Except.bind, Except.map] at hout
        cases hout
        have hsub : List.Sublist
            (pySliceTo (criteria.getD default).max_results
              (List.insertionSort simOrder sims))
            (List.insertionSort simOrder sims) := by
          unfold pySliceTo
          split_ifs
          all_goals exact List.take_sublist _ _
        constructor
        · intro sw hsw
          have : sw ∈ List.insertionSort simOrder sims := hsub.mem hsw
          have : sw ∈ sims := (List.mem_insertionSort simOrder).mp this
          exact similarLoop_mem _ _ _ _ _ hsl sw this
        constructor
        · exact (List.sorted_insertionSort simOrder sims).sublist hsub
        · unfold pySliceTo
          rw [if_pos hmax]
          have := List.length_take_le
            ((criteria.getD default).max_results.toNat)
            (List.insertionSort simOrder sims)
          omega

/-- C7 witness: the contract theorem applied to a concrete successful run
with the default criteria. -/
theorem c7_witness :
    (0 ≤ ((none : Option SearchCriteria).getD default).max_results ∧
      find_similar_words ("a") [wE, wI] none = .ok c7out) ∧
    ((∀ sw ∈ c7out,
        pyLowerStr sw.word.shuar_text ≠ pyStrip (pyLowerStr ("a")) ∧
        ((none : Option SearchCriteria).getD default).min_similarity_threshold ≤
          sw.similarity.overall_similarity) ∧
      List.Sorted simOrder c7out ∧
      (c7out.length : ℤ) ≤ ((none : Option SearchCriteria).getD default).max_results) :=
  ⟨⟨by decide, by with_unfolding_all decide⟩,
   c7_find_similar_words_contract ("a") [wE, wI] none c7out (by decide)
     (by with_unfolding_all decide)⟩



lemma count_feature_ratio_nonneg (text : List Char) (fs : List Char) (tc : ℕ) :
    0 ≤ count_feature_ratio text fs tc := by
  unfold count_feature_ratio
  split_ifs
  · exact le_refl 0
  · positivity

lemma count_digraph_ratio_nonneg (text : List Char) (dg : List (Char × Char)) (tw : ℕ) :
    0 ≤ count_digraph_ratio text dg tw := by
  unfold count_digraph_ratio
  split_ifs
  · exact le_refl 0
  · positivity

lemma vowel_system_shuar_nonneg (text : List Char) :
    0 ≤ analyze_vowel_system_shuar text := by
  unfold analyze_vowel_system_shuar
  exact le_max_left 0 _

lemma vowel_system_spanish_nonneg (text : List Char) :
    0 ≤ analyze_vowel_system_spanish text := by
  unfold analyze_vowel_system_spanish
  exact le_max_left 0 _

lemma count_common_words_nonneg (words common : List String) :
    0 ≤ count_common_words words common := by
  unfold count_common_words
  split_ifs
  · exact le_refl 0
  · positivity

lemma count_suffix_patterns_nonneg (words sufs : List String) :
    0 ≤ count_suffix_patterns words sufs := by
  unfold count_suffix_patterns
  split_ifs
  · exact le_refl 0
  · positivity

lemma shuar_score_nonneg (text : String) :
    0 ≤ calculate_shuar_score (analyze_features text) := by
  unfold calculate_shuar_score
  have h1 := count_feature_ratio_nonneg text.data SHUAR_NASAL_VOWELS
    ((text.data.filter (· ≠ ' ')).length)
  have h2 := count_feature_ratio_nonneg text.data SHUAR_LARYNGEALIZED_VOWELS
    ((text.data.filter (· ≠ ' ')).length)
  have h3 := vowel_system_shuar_nonneg text.data
  have h4 := count_common_words_nonneg (pySplit text) SHUAR_COMMON_WORDS
  have h5 := count_suffix_patterns_nonneg (pySplit text) SHUAR_SUFFIXES
  have h6 := count_digraph_ratio_nonneg text.data SHUAR_DIGRAPHS (pySplit text).length
  simp only [analyze_features]
  split_ifs <;> linarith

lemma spanish_score_nonneg (f : DetectionFeatures) :
    0 ≤ calculate_spanish_score f := by
  unfold calculate_spanish_score
  exact le_max_left 0 _



/-- C2 counterexample: for the non-empty text consisting of the single
consonant b, every scored feature is 0, both language scores are 0, and the
unguarded confidence division raises ZeroDivisionError (not a
ValidationError, and not a returned result). -/
theorem c2_single_consonant_divides_by_zero :
    calculate_shuar_score (analyze_features (pyStrip (pyLowerStr ("b")))) = 0 ∧
    calculate_spanish_score (analyze_features (pyStrip (pyLowerStr ("b")))) = 0 ∧
    detect_language ("b") = .error .zeroDivisionError := by
  refine ⟨?_, ?_, ?_⟩ <;> with_unfolding_all decide

/-- C2 (amended): for every non-empty, non-blank text whose combined
language scores are positive, detect_language returns a result without
error and its confidence lies in (0, 1]; when both scores are zero the
division winner_score / (shuar_score + spanish_score) is reached with a
zero denominator and raises ZeroDivisionError, since this division is not
guarded. -/
theorem c2_confidence_in_unit_interval (text : String)
    (h1 : ¬(text = "" ∨ pyStrip text = ""))
    (h2 : 0 < calculate_shuar_score (analyze_features (pyStrip (pyLowerStr text))) +
      calculate_spanish_score (analyze_features (pyStrip (pyLowerStr text)))) :
    ∃ r, detect_language text = .ok r ∧ 0 < r.confidence ∧ r.confidence ≤ 1 := by
  unfold detect_language
  rw [if_neg h1]
  simp only []
  set S := calculate_shuar_score (analyze_features (pyStrip (pyLowerStr text))) with hS
  set P := calculate_spanish_score (analyze_features (pyStrip (pyLowerStr text))) with hP
  have hSnn : 0 ≤ S := shuar_score_nonneg _
  have hPnn : 0 ≤ P := spanish_score_nonneg _
  rw [if_neg h2.ne']
  by_cases hw : S > P
  · simp only [if_pos hw]
    refine ⟨_, rfl, ?_, ?_⟩
    · show 0 < S / (S + P)
      exact div_pos (lt_of_le_of_lt hPnn hw) h2
    · show S / (S + P) ≤ 1
      rw [div_le_one h2]; linarith
  · simp only [if_neg hw]
    push_neg at hw
    refine ⟨_, rfl, ?_, ?_⟩
    · show 0 < P / (S + P)
      refine div_pos ?_ h2
      by_contra hP0
      push_neg at hP0
      have hp0 : P = 0 := le_antisymm hP0 hPnn
      have hs0 : S = 0 := le_antisymm (hw.trans hP0) hSnn
      rw [hp0, hs0] at h2
      simp at h2
    · show P / (S + P) ≤ 1
      rw [div_le_one h2]; linarith

/-- C2 witness: the amended theorem applied at the concrete Spanish text
casa. -/
theorem c2_witness :
    (¬(("casa" : String) = "" ∨ pyStrip ("casa") = "")) ∧
    (∃ r, detect_language ("casa") = .ok r ∧ 0 < r.confidence ∧ r.confidence ≤ 1) :=
  ⟨by decide, c2_confidence_in_unit_interval ("casa") (by decide)
    (by with_unfolding_all decide)⟩




lemma c1_eval (t : Translation) (h1 : t.total_ratings = 0) (h2 : t.usage_count = 0) :
    calculate_translation_confidence t none none =
      min 1 ((get_status_confidence t * 0.3 + 0.3 * 0.15) / 0.45) := by
  unfold calculate_translation_confidence calculate_usage_confidence
  rw [h1, h2]
  norm_num

/-- C1 counterexample: an approved translation with no ratings, no usage,
no source word and no feedback gets confidence 0.7, not the neutral 0.5;
the status and usage factors always contribute, so the total weight is
0.45 and the 0.5 default branch is unreachable. -/
theorem c1_approved_no_signals_is_seven_tenths :
    calculate_translation_confidence tApproved none none = 0.7 ∧
      (0.7 : ℝ) ≠ 0.5 := by
  constructor
  · rw [c1_eval tApproved rfl rfl]
    unfold get_status_confidence tApproved
    norm_num
  · norm_num

/-- C1 (amended): with no ratings, no usage, no source word and no
feedback, the confidence is (status_confidence * 0.3 + 0.3 * 0.15) / 0.45,
which equals 0.5 exactly when the status is needs_review (0.7 for
approved, 11/30 for pending, 1/6 for rejected). -/
theorem c1_no_signal_confidence (t : Translation)
    (h1 : t.total_ratings = 0) (h2 : t.usage_count = 0) :
    calculate_translation_confidence t none none =
      (get_status_confidence t * 0.3 + 0.3 * 0.15) / 0.45 ∧
    (calculate_translation_confidence t none none = 0.5 ↔
      t.status = .needs_review) := by
  have hval := c1_eval t h1 h2
  cases hs : t.status
  all_goals
    unfold get_status_confidence at hval ⊢
    rw [hs] at hval ⊢
  · constructor
    · rw [hval]; norm_num
    · rw [hval]; constructor
      · intro h; norm_num at h
      · intro h; cases h
  · constructor
    · rw [hval]; norm_num
    · rw [hval]; constructor
      · intro h; norm_num at h
      · intro h; cases h
  · constructor
    · rw [hval]; norm_num
    · rw [hval]; constructor
      · intro h; norm_num at h
      · intro h; cases h
  · constructor
    · rw [hval]; norm_num
    · rw [hval]; constructor
      · intro h; norm_num
      · intro h; norm_num

/-- C1 witness: the amended theorem at a concrete needs-review
translation, giving confidence exactly 0.5. -/
theorem c1_witness :
    (tNeedsReview.total_ratings = 0 ∧ tNeedsReview.usage_count = 0) ∧
      calculate_translation_confidence tNeedsReview none none = 0.5 :=
  ⟨⟨rfl, rfl⟩, (c1_no_signal_confidence tNeedsReview rfl rfl).2.mpr rfl⟩



/-- C3 counterexample: holding every other input fixed (zero usage, so the
logarithmic bonus is log 1 = 0), raising the community rating from 0 to 1
lowers the overall quality score: a zero rating is replaced by the neutral
0.5 while a rating of 1 normalizes to 0. -/
theorem c3_quality_not_monotone :
    calculate_overall_quality 0.5 1 false 0 0.5 0.5 <
      calculate_overall_quality 0.5 0 false 0 0.5 0.5 := by
  unfold calculate_overall_quality COMMUNITY_RATING_WEIGHT EXPERT_APPROVAL_WEIGHT
    PHONOLOGICAL_ACCURACY_WEIGHT CULTURAL_APPROPRIATENESS_WEIGHT
  norm_num [Real.log_one]

/-- C3 (amended): the overall quality score is monotonically non-decreasing
in the community rating on positive ratings: holding confidence, expert
approval, usage, phonological accuracy and cultural appropriateness fixed,
0 < r1 <= r2 implies the overall score at r1 is at most the score at r2.
(Monotonicity fails across 0: a zero rating is mapped to the neutral 0.5
while small positive ratings normalize below it.) -/
theorem c3_quality_monotone_on_positive_ratings (confidence_score : ℝ)
    (r1 r2 : ℝ) (expert_approval : Bool) (usage_frequency : ℕ)
    (phonological_accuracy cultural_appropriateness : ℝ)
    (hr1 : 0 < r1) (hr : r1 ≤ r2) :
    calculate_overall_quality confidence_score r1 expert_approval usage_frequency
        phonological_accuracy cultural_appropriateness ≤
      calculate_overall_quality confidence_score r2 expert_approval usage_frequency
        phonological_accuracy cultural_appropriateness := by
  unfold calculate_overall_quality
  rw [if_pos hr1, if_pos (lt_of_lt_of_le hr1 hr)]
  apply min_le_min le_rfl
  unfold EXPERT_APPROVAL_WEIGHT
  have h : (r1 - 1) / 4 ≤ (r2 - 1) / 4 := by linarith
  nlinarith [h]

/-- C3 witness: the amended monotonicity theorem at concrete positive
ratings 1 and 2. -/
theorem c3_witness :
    ((0 : ℝ) < 1 ∧ (1 : ℝ) ≤ 2) ∧
      calculate_overall_quality 0.5 1 false 0 0.5 0.5 ≤
        calculate_overall_quality 0.5 2 false 0 0.5 0.5 :=
  ⟨⟨by norm_num, by norm_num⟩,
   c3_quality_monotone_on_positive_ratings 0.5 1 2 false 0 0.5 0.5
     (by norm_num) (by norm_num)⟩


end ShuarTranslator
